import Mathlib

/-!
Verification of `hw/display/riva128_vga.c` (QEMU RIVA128 VGA emulator).

The file under verification implements an I/O port decoder for the legacy
VGA port range 0x3c0..0x3df.  Most ports are delegated to the generic VGA
core (`vga_ioport_read` / `vga_ioport_write`, defined outside this file);
port 0x3d5 (the CRT data port) is special-cased: when the currently
selected CRT index (`s->vga.cr_index`) is 0x3f, a write drives the two
I2C sideband lines (scl from bit 5, sda from bit 4 of the written byte),
and when it is 0x3e, a read returns `(sda << 3) | (scl << 2)`.
Size-2 port accesses are split into two ordered size-1 accesses, low
address first.

The generic VGA core is external to the file, so the development is
parametrised over an arbitrary implementation `VgaOps σ` of its
interface: a state type `σ`, a port read (which may mutate the core, as
the C function receives a mutable pointer), a port write, the
`cr_index` field accessor, and `vga_common_reset`.
-/

/-- Interface of the generic VGA core (`VGACommonState` together with
`vga_ioport_read`, `vga_ioport_write`, `vga_common_reset` and the
`cr_index` field), which lives outside the verified file. -/
structure VgaOps (σ : Type) where
  ioport_read : σ → Nat → Nat × σ
  ioport_write : σ → Nat → Nat → σ
  cr_index : σ → Nat
  common_reset : σ → σ

/-- The two I2C sideband lines, `struct { bool sda, scl; } i2c`. -/
structure I2C where
  sda : Bool
  scl : Bool
deriving DecidableEq, Repr

/-- The anonymous `riva128` sub-struct of `PCIRIVA128State` (its only
modelled field is the i2c pin pair). -/
structure Riva128Sub where
  i2c : I2C
deriving DecidableEq, Repr

/-- `PCIRIVA128State`: the generic VGA core state plus the riva128
sub-struct holding the sideband lines.  (PCI config space, memory
regions and flags play no role in the verified behaviour.) -/
structure PCIRIVA128State (σ : Type) where
  vga : σ
  riva128 : Riva128Sub

instance {σ : Type} [DecidableEq σ] : DecidableEq (PCIRIVA128State σ) :=
  fun a b =>
    if h1 : a.vga = b.vga then
      if h2 : a.riva128 = b.riva128 then
        isTrue (by cases a; cases b; simp_all)
      else isFalse (by intro h; cases h; exact h2 rfl)
    else isFalse (by intro h; cases h; exact h1 rfl)

/-- The port addresses delegated unconditionally to the generic VGA core:
the `case` labels shared by `riva128_ioport_read` and
`riva128_ioport_write` (all labels except the special-cased 0x3d5). -/
def vga_delegated_ports : List Nat :=
  [0x3c0, 0x3c1, 0x3c2, 0x3c3, 0x3c4, 0x3c5, 0x3c6, 0x3c7,
   0x3c8, 0x3c9, 0x3ca, 0x3cc, 0x3ce, 0x3cf, 0x3d4, 0x3da]

/-- `riva128_ioport_read`: returns the read value together with the
post-read device state (the C function may mutate the device through its
pointer argument via the delegated `vga_ioport_read`). -/
def riva128_ioport_read {σ : Type} (V : VgaOps σ) (s : PCIRIVA128State σ)
    (addr : Nat) : Nat × PCIRIVA128State σ :=
  if addr ∈ vga_delegated_ports then
    let p := V.ioport_read s.vga addr
    (p.1, { s with vga := p.2 })
  else if addr = 0x3d5 then
    if V.cr_index s.vga = 0x3e then
      -- RIVA 128 I2C Read register
      (((cond s.riva128.i2c.sda 1 0) <<< 3) |||
       ((cond s.riva128.i2c.scl 1 0) <<< 2), s)
    else
      let p := V.ioport_read s.vga addr
      (p.1, { s with vga := p.2 })
  else (0, s)

/-- `riva128_ioport_write` (the `val` parameter has C type `uint8_t`;
callers truncate to a byte at the call boundary). -/
def riva128_ioport_write {σ : Type} (V : VgaOps σ) (s : PCIRIVA128State σ)
    (addr val : Nat) : PCIRIVA128State σ :=
  if addr ∈ vga_delegated_ports then
    { s with vga := V.ioport_write s.vga addr val }
  else if addr = 0x3d5 then
    if V.cr_index s.vga = 0x3f then
      -- RIVA 128 I2C Write register
      { s with riva128 :=
          { i2c := { scl := (val &&& 0x20) != 0, sda := (val &&& 0x10) != 0 } } }
    else
      { s with vga := V.ioport_write s.vga addr val }
  else s

/-- `pci_riva128_ioport_read`: MemoryRegion read callback; `addr` is the
offset within the 0x20-byte region, re-based at 0x3c0. -/
def pci_riva128_ioport_read {σ : Type} (V : VgaOps σ) (s : PCIRIVA128State σ)
    (addr size : Nat) : Nat × PCIRIVA128State σ :=
  match size with
  | 1 => riva128_ioport_read V s (addr + 0x3c0)
  | 2 =>
    let p := riva128_ioport_read V s (addr + 0x3c0)
    let q := riva128_ioport_read V p.2 (addr + 0x3c1)
    (p.1 ||| (q.1 <<< 8), q.2)
  | _ => (0, s)

/-- `pci_riva128_ioport_write`: MemoryRegion write callback.  Size-2
writes update the two bytes in little endian order, index byte first
(the `&&& 0xff` on the size-1 path models the conversion of the 64-bit
value to the callee's `uint8_t` parameter). -/
def pci_riva128_ioport_write {σ : Type} (V : VgaOps σ) (s : PCIRIVA128State σ)
    (addr val size : Nat) : PCIRIVA128State σ :=
  match size with
  | 1 => riva128_ioport_write V s (addr + 0x3c0) (val &&& 0xff)
  | 2 =>
    let s1 := riva128_ioport_write V s (addr + 0x3c0) (val &&& 0xff)
    riva128_ioport_write V s1 (addr + 0x3c1) ((val >>> 8) &&& 0xff)
  | _ => s

/-- `pci_secondary_riva128_reset`: calls `vga_common_reset(&d->vga)` on
the generic VGA core state only. -/
def pci_secondary_riva128_reset {σ : Type} (V : VgaOps σ)
    (s : PCIRIVA128State σ) : PCIRIVA128State σ :=
  { s with vga := V.common_reset s.vga }

/-- Modelled from the spec: the payload serialized by
`vmstate_riva128_pci` through `vmstate_riva128_common` /
`RIVA128CommonState`, neither of which is in the verified file.  Per the
spec the persisted state is the device version tag plus the generic VGA
core's complete state, with the two sideband booleans included. -/
structure VMStateRiva128 (σ : Type) where
  version_id : Nat
  vga : σ
  i2c : I2C

/-- Modelled from the spec: serialization of the device state under
`vmstate_riva128_pci` (name "riva128", version_id 2). -/
def vmstate_riva128_save {σ : Type} (s : PCIRIVA128State σ) :
    VMStateRiva128 σ :=
  { version_id := 2, vga := s.vga, i2c := s.riva128.i2c }

/-- Modelled from the spec: deserialization of a saved snapshot into the
current device state.  `vmstate_riva128_pci` has `minimum_version_id`
and `version_id` both 2, so only version 2 snapshots load. -/
def vmstate_riva128_load {σ : Type} (d : VMStateRiva128 σ)
    (s : PCIRIVA128State σ) : Option (PCIRIVA128State σ) :=
  if d.version_id = 2 then
    some { s with vga := d.vga, riva128 := { i2c := d.i2c } }
  else none

/-- Modelled from the spec: a concrete instantiation of the external
generic VGA core as an ordinary indexed register bank (port 0x3d4
selects `cr_index`, port 0x3d5 reads/writes the selected CRT register;
other delegated ports are inert here).  Used only to build concrete
states for witnesses and counterexamples. -/
structure ToyVgaState where
  cr_index : Nat
  cr : List Nat
deriving DecidableEq, Repr

def toyVgaRead (s : ToyVgaState) (addr : Nat) : Nat × ToyVgaState :=
  if addr = 0x3d4 then (s.cr_index, s)
  else if addr = 0x3d5 then (s.cr.getD s.cr_index 0, s)
  else (0, s)

def toyVgaWrite (s : ToyVgaState) (addr val : Nat) : ToyVgaState :=
  if addr = 0x3d4 then { s with cr_index := val }
  else if addr = 0x3d5 then { s with cr := s.cr.set s.cr_index val }
  else s

def toyVgaReset (s : ToyVgaState) : ToyVgaState :=
  { cr_index := 0, cr := List.replicate s.cr.length 0 }

def toyVga : VgaOps ToyVgaState :=
  { ioport_read := toyVgaRead, ioport_write := toyVgaWrite,
    cr_index := ToyVgaState.cr_index, common_reset := toyVgaReset }

/-- Concrete device states used by witnesses and counterexamples. -/
def c1sW : PCIRIVA128State ToyVgaState :=
  { vga := { cr_index := 0x3f, cr := [] },
    riva128 := { i2c := { sda := false, scl := false } } }

def c1tW : PCIRIVA128State ToyVgaState :=
  { vga := { cr_index := 0x3e, cr := [] },
    riva128 := { i2c := { sda := true, scl := true } } }

def c2s : PCIRIVA128State ToyVgaState :=
  { vga := { cr_index := 0, cr := [0, 0] },
    riva128 := { i2c := { sda := false, scl := false } } }

def c3s : PCIRIVA128State ToyVgaState :=
  { vga := { cr_index := 7, cr := [1] },
    riva128 := { i2c := { sda := true, scl := true } } }

def c4s : PCIRIVA128State ToyVgaState :=
  { vga := { cr_index := 0, cr := [0, 0] },
    riva128 := { i2c := { sda := false, scl := false } } }

def c5s : PCIRIVA128State ToyVgaState :=
  { vga := { cr_index := 0, cr := [9] },
    riva128 := { i2c := { sda := true, scl := false } } }

def c6s : PCIRIVA128State ToyVgaState :=
  { vga := { cr_index := 16,
             cr := [0, 0, 0, 0, 0, 0, 0, 0, 0, 0, 0, 0, 0, 0, 0, 0, 5] },
    riva128 := { i2c := { sda := false, scl := false } } }

def c7s : PCIRIVA128State ToyVgaState :=
  { vga := { cr_index := 0x3e, cr := [] },
    riva128 := { i2c := { sda := true, scl := false } } }

def c8s : PCIRIVA128State ToyVgaState :=
  { vga := { cr_index := 0x3e, cr := [] },
    riva128 := { i2c := { sda := false, scl := true } } }

def c8t : PCIRIVA128State ToyVgaState :=
  { vga := { cr_index := 0x3f, cr := [] },
    riva128 := { i2c := { sda := false, scl := true } } }

def c8u : PCIRIVA128State ToyVgaState :=
  { vga := { cr_index := 5, cr := [] },
    riva128 := { i2c := { sda := false, scl := true } } }


/-! ## Helper lemmas -/

lemma and_two_pow_bne_zero (v i : Nat) : ((v &&& 2 ^ i) != 0) = v.testBit i := by
  rw [Nat.and_two_pow]
  cases h : v.testBit i <;> simp [h, Nat.pos_iff_ne_zero, Nat.pow_pos]

lemma and_thirtytwo_bne_zero (v : Nat) : ((v &&& 0x20) != 0) = v.testBit 5 := by
  have h : (0x20 : Nat) = 2 ^ 5 := by norm_num
  rw [h, and_two_pow_bne_zero]

lemma and_sixteen_bne_zero (v : Nat) : ((v &&& 0x10) != 0) = v.testBit 4 := by
  have h : (0x10 : Nat) = 2 ^ 4 := by norm_num
  rw [h, and_two_pow_bne_zero]

lemma testBit_lt_sixteen_eq_false (n i : Nat) (hn : n < 16) (h4 : 4 ≤ i) :
    n.testBit i = false := by
  apply Nat.testBit_lt_two_pow
  calc n < 16 := hn
    _ = 2 ^ 4 := by norm_num
    _ ≤ 2 ^ i := Nat.pow_le_pow_right (by norm_num) h4

lemma i2c_read_byte_other_bits (a b : Bool) (i : Nat) (h2 : i ≠ 2) (h3 : i ≠ 3) :
    (((cond a 1 0) <<< 3) ||| ((cond b 1 0) <<< 2)).testBit i = false := by
  have hlt : ((cond a 1 0) <<< 3) ||| ((cond b 1 0) <<< 2) < 16 := by
    cases a <;> cases b <;> decide
  match i with
  | 0 => cases a <;> cases b <;> decide
  | 1 => cases a <;> cases b <;> decide
  | 2 => exact absurd rfl h2
  | 3 => exact absurd rfl h3
  | (n + 4) => exact testBit_lt_sixteen_eq_false _ _ hlt (by omega)

lemma data_port_not_delegated : (0x3d5 : Nat) ∉ vga_delegated_ports := by decide

/-- Shape of a write to the data port while the write vendor index 0x3f
is selected. -/
lemma riva128_data_port_write_vendor {σ : Type} (V : VgaOps σ)
    (s : PCIRIVA128State σ) (v : Nat) (h : V.cr_index s.vga = 0x3f) :
    riva128_ioport_write V s 0x3d5 v =
      { s with riva128 :=
          { i2c := { scl := (v &&& 0x20) != 0, sda := (v &&& 0x10) != 0 } } } := by
  unfold riva128_ioport_write
  rw [if_neg data_port_not_delegated, if_pos rfl, if_pos h]

/-- Shape of a read of the data port while the read vendor index 0x3e is
selected. -/
lemma riva128_data_port_read_vendor {σ : Type} (V : VgaOps σ)
    (s : PCIRIVA128State σ) (h : V.cr_index s.vga = 0x3e) :
    riva128_ioport_read V s 0x3d5 =
      (((cond s.riva128.i2c.sda 1 0) <<< 3) |||
       ((cond s.riva128.i2c.scl 1 0) <<< 2), s) := by
  unfold riva128_ioport_read
  rw [if_neg data_port_not_delegated, if_pos rfl, if_pos h]

/-- Shape of a read of the data port when the read vendor index is not
selected: delegation to the generic VGA core. -/
lemma riva128_data_port_read_delegates {σ : Type} (V : VgaOps σ)
    (s : PCIRIVA128State σ) (h : V.cr_index s.vga ≠ 0x3e) :
    riva128_ioport_read V s 0x3d5 =
      ((V.ioport_read s.vga 0x3d5).1,
       { s with vga := (V.ioport_read s.vga 0x3d5).2 }) := by
  unfold riva128_ioport_read
  rw [if_neg data_port_not_delegated, if_pos rfl, if_neg h]

/-- Shape of a write to the data port when the write vendor index is not
selected: delegation to the generic VGA core. -/
lemma riva128_data_port_write_delegates {σ : Type} (V : VgaOps σ)
    (s : PCIRIVA128State σ) (v : Nat) (h : V.cr_index s.vga ≠ 0x3f) :
    riva128_ioport_write V s 0x3d5 v =
      { s with vga := V.ioport_write s.vga 0x3d5 v } := by
  unfold riva128_ioport_write
  rw [if_neg data_port_not_delegated, if_pos rfl, if_neg h]

/-! ## Claim C1 -/

/-- C1: writing byte `v` at the data port 0x3d5 while the selected CRT
index is the write vendor index 0x3f sets the clock line (scl) to bit 5
of `v` and the data line (sda) to bit 4 of `v`; a subsequent read at the
data port, in any state `t` carrying those lines with the read vendor
index 0x3e selected, returns `(data <<< 3) ||| (clock <<< 2)` and every
bit other than bits 2 and 3 of the returned byte is 0. -/
theorem i2c_write_sets_lines_read_returns_them {σ : Type} (V : VgaOps σ)
    (s t : PCIRIVA128State σ) (v : Nat)
    (hw : V.cr_index s.vga = 0x3f)
    (hr : V.cr_index t.vga = 0x3e)
    (ht : t.riva128.i2c = (riva128_ioport_write V s 0x3d5 v).riva128.i2c) :
    (riva128_ioport_write V s 0x3d5 v).riva128.i2c.scl = v.testBit 5 ∧
    (riva128_ioport_write V s 0x3d5 v).riva128.i2c.sda = v.testBit 4 ∧
    (riva128_ioport_read V t 0x3d5).1 =
      ((cond (v.testBit 4) 1 0) <<< 3) ||| ((cond (v.testBit 5) 1 0) <<< 2) ∧
    ∀ i : Nat, i ≠ 2 → i ≠ 3 → ((riva128_ioport_read V t 0x3d5).1).testBit i = false := by
  rw [riva128_data_port_write_vendor V s v hw] at ht ⊢
  rw [riva128_data_port_read_vendor V t hr]
  refine ⟨and_thirtytwo_bne_zero v, and_sixteen_bne_zero v, ?_, ?_⟩
  · rw [ht]
    simp only [and_thirtytwo_bne_zero, and_sixteen_bne_zero]
  · intro i h2 h3
    exact i2c_read_byte_other_bits _ _ i h2 h3

/-- Witness for C1 at `v = 0x30`: both lines go high and the read
returns 0x0c. -/
theorem i2c_write_sets_lines_read_returns_them_witness :
    (riva128_ioport_write toyVga c1sW 0x3d5 0x30).riva128.i2c.scl = Nat.testBit 0x30 5 ∧
    (riva128_ioport_write toyVga c1sW 0x3d5 0x30).riva128.i2c.sda = Nat.testBit 0x30 4 ∧
    (riva128_ioport_read toyVga c1tW 0x3d5).1 =
      ((cond (Nat.testBit 0x30 4) 1 0) <<< 3) ||| ((cond (Nat.testBit 0x30 5) 1 0) <<< 2) ∧
    ((riva128_ioport_read toyVga c1tW 0x3d5).1).testBit 7 = false := by
  have h := i2c_write_sets_lines_read_returns_them toyVga c1sW c1tW 0x30
    rfl rfl (by decide)
  exact ⟨h.1, h.2.1, h.2.2.1, h.2.2.2 7 (by decide) (by decide)⟩

/-! ## Claim C2 -/

/-- C2: every size-2 access is evaluated as two ordered size-1
sub-accesses, lower address first: a size-2 write splits its value
little-endian (low byte to the lower address first, high byte to the
higher address second, with the state threaded through in that order);
a size-2 read performs the low-address sub-read first and returns the
low sub-read result in bits 0-7 and the high sub-read result in bits
8-15. -/
theorem word_access_splits_little_endian {σ : Type} (V : VgaOps σ)
    (s : PCIRIVA128State σ) (addr v : Nat) :
    (pci_riva128_ioport_write V s addr v 2 =
      riva128_ioport_write V
        (riva128_ioport_write V s (addr + 0x3c0) (v &&& 0xff))
        (addr + 0x3c1) ((v >>> 8) &&& 0xff)) ∧
    (pci_riva128_ioport_read V s addr 2 =
      ((riva128_ioport_read V s (addr + 0x3c0)).1 |||
        ((riva128_ioport_read V (riva128_ioport_read V s (addr + 0x3c0)).2
           (addr + 0x3c1)).1 <<< 8),
       (riva128_ioport_read V (riva128_ioport_read V s (addr + 0x3c0)).2
         (addr + 0x3c1)).2)) ∧
    (∀ i : Nat, i < 8 →
      ((pci_riva128_ioport_read V s addr 2).1).testBit i =
        ((riva128_ioport_read V s (addr + 0x3c0)).1).testBit i) ∧
    ((riva128_ioport_read V s (addr + 0x3c0)).1 < 256 →
      ∀ i : Nat,
        ((pci_riva128_ioport_read V s addr 2).1).testBit (8 + i) =
          ((riva128_ioport_read V (riva128_ioport_read V s (addr + 0x3c0)).2
             (addr + 0x3c1)).1).testBit i) := by
  refine ⟨rfl, rfl, ?_, ?_⟩
  · intro i hi
    show ((riva128_ioport_read V s (addr + 0x3c0)).1 ||| _).testBit i = _
    rw [Nat.testBit_or, Nat.testBit_shiftLeft]
    have h8 : ¬ (8 ≤ i) := by omega
    simp [h8]
  · intro hlo i
    show ((riva128_ioport_read V s (addr + 0x3c0)).1 ||| _).testBit (8 + i) = _
    rw [Nat.testBit_or, Nat.testBit_shiftLeft]
    have hlow : ((riva128_ioport_read V s (addr + 0x3c0)).1).testBit (8 + i) = false := by
      apply Nat.testBit_lt_two_pow
      calc (riva128_ioport_read V s (addr + 0x3c0)).1 < 256 := hlo
        _ = 2 ^ 8 := by norm_num
        _ ≤ 2 ^ (8 + i) := Nat.pow_le_pow_right (by norm_num) (by omega)
    have h8 : 8 ≤ 8 + i := by omega
    simp [hlow, h8, Nat.add_sub_cancel_left]

/-- Witness for C2: a size-2 access at offset 0x14 (ports 0x3d4/0x3d5)
with value 0x103f, checking the split equations and the bit-range facts
at bit 0 and bit 8. -/
theorem word_access_splits_little_endian_witness :
    (pci_riva128_ioport_write toyVga c2s 0x14 0x103f 2 =
      riva128_ioport_write toyVga
        (riva128_ioport_write toyVga c2s (0x14 + 0x3c0) (0x103f &&& 0xff))
        (0x14 + 0x3c1) ((0x103f >>> 8) &&& 0xff)) ∧
    (pci_riva128_ioport_read toyVga c2s 0x14 2 =
      ((riva128_ioport_read toyVga c2s (0x14 + 0x3c0)).1 |||
        ((riva128_ioport_read toyVga
           (riva128_ioport_read toyVga c2s (0x14 + 0x3c0)).2 (0x14 + 0x3c1)).1 <<< 8),
       (riva128_ioport_read toyVga
         (riva128_ioport_read toyVga c2s (0x14 + 0x3c0)).2 (0x14 + 0x3c1)).2)) ∧
    ((pci_riva128_ioport_read toyVga c2s 0x14 2).1).testBit 0 =
      ((riva128_ioport_read toyVga c2s (0x14 + 0x3c0)).1).testBit 0 ∧
    ((pci_riva128_ioport_read toyVga c2s 0x14 2).1).testBit (8 + 0) =
      ((riva128_ioport_read toyVga
         (riva128_ioport_read toyVga c2s (0x14 + 0x3c0)).2 (0x14 + 0x3c1)).1).testBit 0 := by
  have h := word_access_splits_little_endian toyVga c2s 0x14 0x103f
  exact ⟨h.1, h.2.1, h.2.2.1 0 (by decide), h.2.2.2 (by decide) 0⟩

/-! ## Claim C3 -/

/-- C3 counterexample: starting from a state with both sideband lines
high, the secondary variant's reset hook (which only calls
`vga_common_reset` on the generic VGA core state) leaves both lines
high, refuting "after reset both lines are false regardless of their
prior values". -/
theorem secondary_reset_leaves_lines_high :
    (pci_secondary_riva128_reset toyVga c3s).riva128.i2c.scl = true ∧
    (pci_secondary_riva128_reset toyVga c3s).riva128.i2c.sda = true := by decide

/-- C3 (amended): the secondary variant's reset hook resets only the
generic VGA core's state; the sideband bus lines (and the whole riva128
sub-struct) keep their prior values across the reset. -/
theorem secondary_reset_resets_only_vga_core {σ : Type} (V : VgaOps σ)
    (s : PCIRIVA128State σ) :
    (pci_secondary_riva128_reset V s).riva128 = s.riva128 ∧
    (pci_secondary_riva128_reset V s).vga = V.common_reset s.vga :=
  ⟨rfl, rfl⟩

/-! ## Claim C5 -/

/-- C5: a single-byte access whose normalized address (offset plus the
0x3c0 re-base) is outside the recognized set of handled ports (the
delegated ports and the data port 0x3d5) reads as 0 with no state
change, and a write to it is a no-op; both are total functions, no
error. -/
theorem unhandled_port_reads_zero_writes_noop {σ : Type} (V : VgaOps σ)
    (s : PCIRIVA128State σ) (addr v : Nat)
    (h1 : addr + 0x3c0 ∉ vga_delegated_ports)
    (h2 : addr + 0x3c0 ≠ 0x3d5) :
    pci_riva128_ioport_read V s addr 1 = (0, s) ∧
    pci_riva128_ioport_write V s addr v 1 = s := by
  constructor
  · show riva128_ioport_read V s (addr + 0x3c0) = (0, s)
    unfold riva128_ioport_read
    rw [if_neg h1, if_neg h2]
  · show riva128_ioport_write V s (addr + 0x3c0) (v &&& 0xff) = s
    unfold riva128_ioport_write
    rw [if_neg h1, if_neg h2]

/-- Witness for C5 at offset 0x0b (port 0x3cb, which has no case
label). -/
theorem unhandled_port_reads_zero_writes_noop_witness :
    pci_riva128_ioport_read toyVga c5s 0x0b 1 = (0, c5s) ∧
    pci_riva128_ioport_write toyVga c5s 0x0b 0xff 1 = c5s :=
  unhandled_port_reads_zero_writes_noop toyVga c5s 0x0b 0xff
    (by decide) (by decide)

/-! ## Claim C6 -/

/-- C6 counterexample: with an unknown selected index (16, neither 0x3e
nor 0x3f) and a generic VGA core whose CRT register 16 holds 5, the read
at the data port returns 5, not 0: the code delegates to the core
instead of returning 0. -/
theorem data_port_unknown_index_read_nonzero :
    toyVga.cr_index c6s.vga ≠ 0x3e ∧ toyVga.cr_index c6s.vga ≠ 0x3f ∧
    (riva128_ioport_read toyVga c6s 0x3d5).1 = 5 := by decide

/-- C6 (amended): a read at the data port while the selected index is
neither the read vendor index 0x3e nor the write vendor index 0x3f is
delegated to the generic VGA core and returns the core's value (which
need not be 0). -/
theorem data_port_unknown_index_read_delegates {σ : Type} (V : VgaOps σ)
    (s : PCIRIVA128State σ)
    (h1 : V.cr_index s.vga ≠ 0x3e) (h2 : V.cr_index s.vga ≠ 0x3f) :
    riva128_ioport_read V s 0x3d5 =
      ((V.ioport_read s.vga 0x3d5).1,
       { s with vga := (V.ioport_read s.vga 0x3d5).2 }) :=
  riva128_data_port_read_delegates V s h1

/-- Witness for C6 (amended) at the concrete counterexample state. -/
theorem data_port_unknown_index_read_delegates_witness :
    riva128_ioport_read toyVga c6s 0x3d5 =
      ((toyVga.ioport_read c6s.vga 0x3d5).1,
       { c6s with vga := (toyVga.ioport_read c6s.vga 0x3d5).2 }) :=
  data_port_unknown_index_read_delegates toyVga c6s (by decide) (by decide)

/-! ## Claim C7 -/

/-- C7: any write performed while the selected index is not the write
vendor index 0x3f — whatever the address, including the data port with
the read vendor index selected and every non-data-port address — leaves
the two sideband lines unchanged. -/
theorem non_vendor_index_write_preserves_i2c {σ : Type} (V : VgaOps σ)
    (s : PCIRIVA128State σ) (addr val : Nat)
    (h : V.cr_index s.vga ≠ 0x3f) :
    (riva128_ioport_write V s addr val).riva128.i2c = s.riva128.i2c := by
  unfold riva128_ioport_write
  by_cases hA : addr ∈ vga_delegated_ports
  · rw [if_pos hA]
  · rw [if_neg hA]
    by_cases hB : addr = 0x3d5
    · rw [if_pos hB, if_neg h]
    · rw [if_neg hB]

/-- Witness for C7: a write at the data port with the read vendor index
0x3e selected leaves the lines untouched. -/
theorem non_vendor_index_write_preserves_i2c_witness :
    (riva128_ioport_write toyVga c7s 0x3d5 0x30).riva128.i2c = c7s.riva128.i2c :=
  non_vendor_index_write_preserves_i2c toyVga c7s 0x3d5 0x30 (by decide)

/-! ## Claim C4 -/

/-- C4 counterexample: a 2-byte write at offset 0x14 with low byte 0x3f
(select the write vendor index) and high byte 0x00 (bus control value),
from a state with index 0 (so the index does change mid-sequence) and
both lines already low.  The reversed pair of size-1 writes produces the
same final state as the 2-byte write, refuting "differs ... whenever the
index changes mid-sequence": the high-byte write drives the lines to the
values they already have, and the delegated CRT write stores a value the
register already holds. -/
theorem word_write_reverse_order_can_coincide :
    toyVga.cr_index c4s.vga ≠ 0x3f ∧
    pci_riva128_ioport_write toyVga c4s 0x14 0x003f 2 =
      pci_riva128_ioport_write toyVga
        (pci_riva128_ioport_write toyVga c4s 0x15 0x00 1) 0x14 0x3f 1 := by
  decide

/-- C4 (amended): a 2-byte write at offset 0x14 whose low byte is the
write-vendor-index-selecting value 0x3f and whose high byte is a bus
control value is identical to performing the low-byte size-1 write then
the high-byte size-1 write; and the reversed order yields a different
final state whenever the index changes mid-sequence AND bits 5 and 4 of
the bus control byte do not both agree with the current clock and data
line states. -/
theorem word_write_index_then_data_order {σ : Type} (V : VgaOps σ)
    (s : PCIRIVA128State σ) (v : Nat)
    (hlow : v &&& 0xff = 0x3f)
    (hsel : V.cr_index (V.ioport_write s.vga 0x3d4 0x3f) = 0x3f)
    (hidx : V.cr_index s.vga ≠ 0x3f)
    (hdiff : ({ sda := (((v >>> 8) &&& 0xff) &&& 0x10) != 0,
                scl := (((v >>> 8) &&& 0xff) &&& 0x20) != 0 } : I2C) ≠ s.riva128.i2c) :
    pci_riva128_ioport_write V s 0x14 v 2 =
      pci_riva128_ioport_write V
        (pci_riva128_ioport_write V s 0x14 (v &&& 0xff) 1)
        0x15 ((v >>> 8) &&& 0xff) 1 ∧
    pci_riva128_ioport_write V s 0x14 v 2 ≠
      pci_riva128_ioport_write V
        (pci_riva128_ioport_write V s 0x15 ((v >>> 8) &&& 0xff) 1)
        0x14 (v &&& 0xff) 1 := by
  have hmem : (0x3d4 : Nat) ∈ vga_delegated_ports := by decide
  have hff : (0xff : Nat) &&& 0xff = 0xff := by decide
  have idem : ∀ a : Nat, (a &&& 0xff) &&& 0xff = a &&& 0xff := by
    intro a
    rw [Nat.and_assoc, hff]
  have step_low : riva128_ioport_write V s 0x3d4 (v &&& 0xff) =
      { s with vga := V.ioport_write s.vga 0x3d4 0x3f } := by
    rw [hlow]
    unfold riva128_ioport_write
    rw [if_pos hmem]
  have step_high : riva128_ioport_write V
      { s with vga := V.ioport_write s.vga 0x3d4 0x3f }
      0x3d5 ((v >>> 8) &&& 0xff) =
      { vga := V.ioport_write s.vga 0x3d4 0x3f,
        riva128 := { i2c := { scl := (((v >>> 8) &&& 0xff) &&& 0x20) != 0,
                              sda := (((v >>> 8) &&& 0xff) &&& 0x10) != 0 } } } := by
    rw [riva128_data_port_write_vendor V _ _ hsel]
  have forward_eq : pci_riva128_ioport_write V s 0x14 v 2 =
      { vga := V.ioport_write s.vga 0x3d4 0x3f,
        riva128 := { i2c := { scl := (((v >>> 8) &&& 0xff) &&& 0x20) != 0,
                              sda := (((v >>> 8) &&& 0xff) &&& 0x10) != 0 } } } := by
    show riva128_ioport_write V (riva128_ioport_write V s 0x3d4 (v &&& 0xff))
        0x3d5 ((v >>> 8) &&& 0xff) = _
    rw [step_low, step_high]
  have seq_eq : pci_riva128_ioport_write V
      (pci_riva128_ioport_write V s 0x14 (v &&& 0xff) 1)
      0x15 ((v >>> 8) &&& 0xff) 1 =
      pci_riva128_ioport_write V s 0x14 v 2 := by
    show riva128_ioport_write V (riva128_ioport_write V s 0x3d4 ((v &&& 0xff) &&& 0xff))
        0x3d5 (((v >>> 8) &&& 0xff) &&& 0xff) = _
    rw [idem, idem]
    rfl
  have rev_low : riva128_ioport_write V s 0x3d5 (((v >>> 8) &&& 0xff) &&& 0xff) =
      { s with vga := V.ioport_write s.vga 0x3d5 (((v >>> 8) &&& 0xff) &&& 0xff) } :=
    riva128_data_port_write_delegates V s _ hidx
  have rev_eq : pci_riva128_ioport_write V
      (pci_riva128_ioport_write V s 0x15 ((v >>> 8) &&& 0xff) 1)
      0x14 (v &&& 0xff) 1 =
      { s with vga :=
          (V.ioport_write (V.ioport_write s.vga 0x3d5 (((v >>> 8) &&& 0xff) &&& 0xff))
            0x3d4 ((v &&& 0xff) &&& 0xff)) } := by
    show riva128_ioport_write V
        (riva128_ioport_write V s 0x3d5 (((v >>> 8) &&& 0xff) &&& 0xff))
        0x3d4 ((v &&& 0xff) &&& 0xff) = _
    rw [rev_low]
    unfold riva128_ioport_write
    rw [if_pos hmem]
  refine ⟨seq_eq.symm, ?_⟩
  intro hcontra
  rw [forward_eq, rev_eq] at hcontra
  apply hdiff
  have hsub := congrArg PCIRIVA128State.riva128 hcontra
  exact congrArg Riva128Sub.i2c hsub

/-- Witness for C4 (amended) with value 0x303f: high byte 0x30 drives
both lines high while the initial state has them low. -/
theorem word_write_index_then_data_order_witness :
    pci_riva128_ioport_write toyVga c4s 0x14 0x303f 2 =
      pci_riva128_ioport_write toyVga
        (pci_riva128_ioport_write toyVga c4s 0x14 (0x303f &&& 0xff) 1)
        0x15 ((0x303f >>> 8) &&& 0xff) 1 ∧
    pci_riva128_ioport_write toyVga c4s 0x14 0x303f 2 ≠
      pci_riva128_ioport_write toyVga
        (pci_riva128_ioport_write toyVga c4s 0x15 ((0x303f >>> 8) &&& 0xff) 1)
        0x14 (0x303f &&& 0xff) 1 :=
  word_write_index_then_data_order toyVga c4s 0x303f
    (by decide) (by decide) (by decide) (by decide)

/-! ## Claim C8 -/

/-- C8: at the read vendor index 0x3e a write to the data port is
delegated to the generic VGA core with no special handling; at the write
vendor index 0x3f a read of the data port is delegated to the generic
VGA core; and for every other selected index both read and write of the
data port are delegated entirely to the generic VGA core. -/
theorem data_port_vendor_delegation {σ : Type} (V : VgaOps σ)
    (s t u : PCIRIVA128State σ) (v w : Nat)
    (h1 : V.cr_index s.vga = 0x3e)
    (h2 : V.cr_index t.vga = 0x3f)
    (h3 : V.cr_index u.vga ≠ 0x3e)
    (h4 : V.cr_index u.vga ≠ 0x3f) :
    riva128_ioport_write V s 0x3d5 v =
      { s with vga := V.ioport_write s.vga 0x3d5 v } ∧
    riva128_ioport_read V t 0x3d5 =
      ((V.ioport_read t.vga 0x3d5).1,
       { t with vga := (V.ioport_read t.vga 0x3d5).2 }) ∧
    riva128_ioport_read V u 0x3d5 =
      ((V.ioport_read u.vga 0x3d5).1,
       { u with vga := (V.ioport_read u.vga 0x3d5).2 }) ∧
    riva128_ioport_write V u 0x3d5 w =
      { u with vga := V.ioport_write u.vga 0x3d5 w } := by
  refine ⟨?_, ?_, ?_, ?_⟩
  · exact riva128_data_port_write_delegates V s v (by rw [h1]; decide)
  · exact riva128_data_port_read_delegates V t (by rw [h2]; decide)
  · exact riva128_data_port_read_delegates V u h3
  · exact riva128_data_port_write_delegates V u w h4

/-- Witness for C8 at indices 0x3e, 0x3f and 5. -/
theorem data_port_vendor_delegation_witness :
    riva128_ioport_write toyVga c8s 0x3d5 0x12 =
      { c8s with vga := toyVga.ioport_write c8s.vga 0x3d5 0x12 } ∧
    riva128_ioport_read toyVga c8t 0x3d5 =
      ((toyVga.ioport_read c8t.vga 0x3d5).1,
       { c8t with vga := (toyVga.ioport_read c8t.vga 0x3d5).2 }) ∧
    riva128_ioport_read toyVga c8u 0x3d5 =
      ((toyVga.ioport_read c8u.vga 0x3d5).1,
       { c8u with vga := (toyVga.ioport_read c8u.vga 0x3d5).2 }) ∧
    riva128_ioport_write toyVga c8u 0x3d5 0x34 =
      { c8u with vga := toyVga.ioport_write c8u.vga 0x3d5 0x34 } :=
  data_port_vendor_delegation toyVga c8s c8t c8u 0x12 0x34
    rfl rfl (by decide) (by decide)

/-! ## Claim C9 -/

/-- C9: serializing the device state, resetting the device through the
secondary variant's reset hook, and deserializing the saved snapshot
restores both sideband lines and the generic VGA core's complete state
exactly (serialize-then-deserialize is the identity on that state). -/
theorem vmstate_roundtrip_restores_state {σ : Type} (V : VgaOps σ)
    (s : PCIRIVA128State σ) :
    vmstate_riva128_load (vmstate_riva128_save s)
      (pci_secondary_riva128_reset V s) = some s := rfl

/-! ## Claim C10 -/

/-- C10: for a size-2 access at the highest in-range offset 0x1f, the
high sub-access goes to address 0x1f + 0x3c1 = 0x3e0, which is outside
the recognized address set (so it reads 0 and ignores writes, with no
wrap-around to the range base): the size-2 read equals the low sub-read
with bits 8-15 zero (here 0 outright, since 0x3df is itself unhandled),
and the size-2 write silently discards its high byte. -/
theorem word_access_top_offset_no_wrap {σ : Type} (V : VgaOps σ)
    (s : PCIRIVA128State σ) (v : Nat) :
    0x1f + 0x3c1 = 0x3e0 ∧
    (0x3e0 : Nat) ∉ vga_delegated_ports ∧ (0x3e0 : Nat) ≠ 0x3d5 ∧
    riva128_ioport_read V s 0x3e0 = (0, s) ∧
    riva128_ioport_write V s 0x3e0 v = s ∧
    pci_riva128_ioport_read V s 0x1f 2 = riva128_ioport_read V s 0x3df ∧
    (pci_riva128_ioport_read V s 0x1f 2).1 = 0 ∧
    pci_riva128_ioport_write V s 0x1f v 2 =
      riva128_ioport_write V s 0x3df (v &&& 0xff) := by
  have hmem : (0x3e0 : Nat) ∉ vga_delegated_ports := by decide
  have hne : (0x3e0 : Nat) ≠ 0x3d5 := by decide
  have h3e0r : ∀ x : PCIRIVA128State σ, riva128_ioport_read V x 0x3e0 = (0, x) := by
    intro x
    unfold riva128_ioport_read
    rw [if_neg hmem, if_neg hne]
  have h3e0w : ∀ (x : PCIRIVA128State σ) (w : Nat),
      riva128_ioport_write V x 0x3e0 w = x := by
    intro x w
    unfold riva128_ioport_write
    rw [if_neg hmem, if_neg hne]
  have h3dfr : riva128_ioport_read V s 0x3df = (0, s) := by
    unfold riva128_ioport_read
    rw [if_neg (by decide : (0x3df : Nat) ∉ vga_delegated_ports),
        if_neg (by decide : (0x3df : Nat) ≠ 0x3d5)]
  have hpci : pci_riva128_ioport_read V s 0x1f 2 = (0, s) := by
    show ((riva128_ioport_read V s 0x3df).1 |||
      ((riva128_ioport_read V (riva128_ioport_read V s 0x3df).2 0x3e0).1 <<< 8),
      (riva128_ioport_read V (riva128_ioport_read V s 0x3df).2 0x3e0).2) = (0, s)
    rw [h3dfr]
    simp [h3e0r]
  refine ⟨by norm_num, hmem, hne, h3e0r s, h3e0w s v, ?_, ?_, ?_⟩
  · rw [hpci, h3dfr]
  · rw [hpci]
  · show riva128_ioport_write V
      (riva128_ioport_write V s 0x3df (v &&& 0xff)) 0x3e0 ((v >>> 8) &&& 0xff) =
      riva128_ioport_write V s 0x3df (v &&& 0xff)
    exact h3e0w _ _
